import Mathlib

/-
  Verification of the JappTracker pipeline (src/JappTracker.py).

  The Python program is shallowly embedded: every definition below mirrors a
  function or code path of the source file.  External effects are made
  explicit:
  * model responses (OpenAI chat completions) are values supplied in the
    message environment;
  * JSON values that the extractor inspects are modelled by `JVal`
    (the prompt constrains the model to strings or null for each field);
  * the Notion store is a list of page batches, exactly as the paginated
    `client.search` loop delivers them;
  * base64-encoded message parts carry their decoded text directly
    (`Option String`: `none` when the `data` key is absent).

  Python string primitives are modelled explicitly over the character list
  of the string (`.strip()` by `pyStrip`, `.lower()`/`.upper()` by
  `pyLower`/`pyUpper`, `.capitalize()` by `pyCapitalize`, slicing by
  `pySliceTake`/`pySliceDrop`); these agree with Python on ASCII input,
  which is all the pipeline's literals use.
-/

/-! ### Python string primitives -/

/-- Python `str.strip()`: remove leading and trailing whitespace. -/
def pyStrip (s : String) : String :=
  String.mk (((s.data.dropWhile Char.isWhitespace).reverse.dropWhile
    Char.isWhitespace).reverse)

/-- Python `str.lower()` (ASCII case mapping). -/
def pyLower (s : String) : String :=
  String.mk (s.data.map Char.toLower)

/-- Python `str.upper()` (ASCII case mapping). -/
def pyUpper (s : String) : String :=
  String.mk (s.data.map Char.toUpper)

/-- Python slicing `s[:n]` (by characters). -/
def pySliceTake (s : String) (n : Nat) : String :=
  String.mk (s.data.take n)

/-- Python slicing `s[n:]` (by characters). -/
def pySliceDrop (s : String) (n : Nat) : String :=
  String.mk (s.data.drop n)

/-! ### JSON values handled by the extractor -/

/-- A JSON field value as the extractor sees it: `null` or a string. -/
inductive JVal where
  | null : JVal
  | str (s : String) : JVal
deriving DecidableEq

/-- Python truthiness of a JSON field value: `None` and `""` are falsy. -/
def JVal.truthy : JVal → Bool
  | JVal.null => false
  | JVal.str s => !(s == "")

/-- Python `str()` applied to a JSON field value (`str(None) = "None"`). -/
def pyStr : JVal → String
  | JVal.null => "None"
  | JVal.str s => s

/-- Python `str.capitalize()`: first character upper-cased, rest lower-cased. -/
def pyCapitalize (s : String) : String :=
  match s.data with
  | [] => ""
  | c :: cs => String.mk (c.toUpper :: cs.map Char.toLower)

/-! ### The JobApplication dataclass -/

/-- Mirrors the `JobApplication` dataclass of the source. -/
structure JobApplication where
  role : String
  organization : String
  job_description_link : Option String
  status : String
deriving DecidableEq

/-! ### EmailAnalyzer.is_job_application -/

/-- Mirrors `EmailAnalyzer.is_job_application` lines 169-173: the model's
response content (`none` when the API returned no content) is checked for
falsiness, then compared via `content.strip().upper() == "YES"`. -/
def is_job_application (content : Option String) : Bool :=
  match content with
  | none => false
  | some c => if c = "" then false else (pyUpper (pyStrip c) == "YES")

/-! ### EmailAnalyzer.extract_job_info -/

/-- The parsed JSON object of the extraction response.  Each field is `none`
when the key is absent from the object. -/
structure ExtractData where
  role : Option JVal
  organization : Option JVal
  job_description_link : Option JVal
  status : Option JVal
deriving DecidableEq

/-- The extraction model response: falsy content (line 208), content that
`json.loads` rejects (line 236), or a parsed JSON object. -/
inductive ModelContent where
  | empty : ModelContent
  | malformed : ModelContent
  | parsed (data : ExtractData) : ModelContent
deriving DecidableEq

/-- Mirrors lines 214-216 (and the identical re-normalization in
`create_job_application` lines 365-367 and `update_job_application` lines
392-394): `str(x).strip().capitalize()`, coerced to `Applied` outside the
three allowed values. -/
def coerce_status (s : String) : String :=
  let n := pyCapitalize (pyStrip s)
  if n = "Applied" ∨ n = "Interview" ∨ n = "Rejected" then n else "Applied"

/-- Mirrors the test of lines 221 and 223:
`not v or str(v).lower() in ['null', 'unknown']`. -/
def bad_key (v : JVal) : Bool :=
  !v.truthy || pyLower (pyStr v) == "null" || pyLower (pyStr v) == "unknown"

/-- Mirrors `EmailAnalyzer.extract_job_info` lines 206-238.  The two model
calls and JSON decoding are external; the function receives the decoded
response and applies exactly the source's normalization:
status coercion (214-216), role/organization placeholder substitution
(219-224), link absence test (227-228, note the case-sensitive raw
comparison with the literal `'null'`), and final trimming (231-232). -/
def extract_job_info (mc : ModelContent) : Option JobApplication :=
  match mc with
  | ModelContent.empty => none
  | ModelContent.malformed => none
  | ModelContent.parsed d =>
    let status := coerce_status (pyStr (d.status.getD (JVal.str "Applied")))
    let role :=
      if bad_key (d.role.getD (JVal.str "Unknown")) then "Unknown Role"
      else pyStr (d.role.getD (JVal.str "Unknown"))
    let organization :=
      if bad_key (d.organization.getD (JVal.str "Unknown")) then "Unknown Organization"
      else pyStr (d.organization.getD (JVal.str "Unknown"))
    let jv := d.job_description_link.getD JVal.null
    let link :=
      if jv.truthy ∧ pyStrip (pyStr jv) ≠ "" ∧ jv ≠ JVal.str "null"
      then some (pyStrip (pyStr jv)) else none
    some { role := pyStrip role, organization := pyStrip organization,
           job_description_link := link, status := status }

/-! ### EmailReader._extract_body -/

/-- One MIME part of a message: its type and the decoded text of its body
`data` key (`none` when the key is absent). -/
structure MessagePart where
  mimeType : String
  data : Option String
deriving DecidableEq

/-- A message payload: either multi-part (the `parts` key is present) or a
single part described by the top-level `mimeType` and body `data`. -/
structure MessagePayload where
  parts : Option (List MessagePart)
  mimeType : String
  data : Option String
deriving DecidableEq

/-- Matches the end of Python's regex `<[^<]+?>` after its first consumed
character: scans for the first `>`, failing if a `<` arrives first.
Returns the characters after the consumed `>`. -/
def tag_end : List Char → Option (List Char)
  | [] => none
  | c :: cs => if c = '>' then some cs else if c = '<' then none else tag_end cs

/-- Matches `[^<]+?>` (the regex body after the opening `<`) at the start of
the list: at least one character distinct from `<`, then lazily up to the
first possible closing `>`. -/
def match_tag : List Char → Option (List Char)
  | [] => none
  | c :: cs => if c = '<' then none else tag_end cs

/-- One pass of `re.sub('<[^<]+?>', '', html)` over the character list; the
fuel argument is instantiated with the list length, which bounds the number
of steps since every step consumes at least one character. -/
def strip_tags_fuel : Nat → List Char → List Char
  | 0, l => l
  | _ + 1, [] => []
  | fuel + 1, c :: cs =>
    if c = '<' then
      match match_tag cs with
      | some r => strip_tags_fuel fuel r
      | none => c :: strip_tags_fuel fuel cs
    else c :: strip_tags_fuel fuel cs

/-- Mirrors line 122: `re.sub('<[^<]+?>', '', html)`. -/
def strip_tags (s : String) : String :=
  String.mk (strip_tags_fuel s.data.length s.data)

/-- Mirrors `EmailReader._extract_body` lines 105-129.  Multi-part payloads
concatenate the decoded `text/plain` parts and fall back to the first
`text/html` part (tag-stripped) while no body has been accumulated; a
single-part payload is only decoded when its type is `text/plain`. -/
def extract_body (payload : MessagePayload) : String :=
  match payload.parts with
  | some parts =>
    parts.foldl
      (fun body part =>
        if part.mimeType = "text/plain" then
          match part.data with
          | some d => body ++ d
          | none => body
        else if part.mimeType = "text/html" then
          if body = "" then
            match part.data with
            | some d => strip_tags d
            | none => body
          else body
        else body)
      ""
  | none =>
    if payload.mimeType = "text/plain" then
      match payload.data with
      | some d => d
      | none => ""
    else ""

/-! ### NotionManager -/

/-- A page of the Notion store, with the properties this program reads and
writes.  `number` is `none` when the `Number` property is absent or holds
JSON null; `role_title` and `org_rich` are the `plain_text` entries of the
`Role` title array and the `Organization` rich-text array; `status` and
`link` are `none` when the corresponding property has never been written. -/
structure NotionPage where
  id : String
  parent_database_id : String
  number : Option Int
  role_title : List String
  org_rich : List String
  status : Option String
  link : Option String
  notes : List String
deriving DecidableEq

/-- Mirrors `NotionManager._get_db_id_formats` lines 255-258: the database
id as configured and its hyphenated 8-4-4-4-12 form. -/
def get_db_id_formats (database_id : String) : List String :=
  [database_id,
   pySliceTake database_id 8 ++ "-" ++
   pySliceTake (pySliceDrop database_id 8) 4 ++ "-" ++
   pySliceTake (pySliceDrop database_id 12) 4 ++ "-" ++
   pySliceTake (pySliceDrop database_id 16) 4 ++ "-" ++
   pySliceDrop database_id 20]

/-- Mirrors line 326: the trimmed `plain_text` of the first `Role` title
entry, or the empty string when the array is empty. -/
def page_role (p : NotionPage) : String :=
  pyStrip ((p.role_title.head?).getD "")

/-- Mirrors line 327: the trimmed `plain_text` of the first `Organization`
rich-text entry, or the empty string when the array is empty. -/
def page_org (p : NotionPage) : String :=
  pyStrip ((p.org_rich.head?).getD "")

/-- The per-page test of `job_exists` lines 318-329: the page's parent is
one of the two database-id formats and its trimmed role and organization
equal the candidate's trimmed fields. -/
def page_scan_match (dbids : List String) (role organization : String)
    (p : NotionPage) : Bool :=
  dbids.contains p.parent_database_id
    && page_role p == role && page_org p == organization

/-- The inner `for page in results` loop of `job_exists` lines 317-330:
return the id of the first matching page of the batch. -/
def find_job_in_pages (dbids : List String) (role organization : String) :
    List NotionPage → Option String
  | [] => none
  | p :: ps =>
    if page_scan_match dbids role organization p then some p.id
    else find_job_in_pages dbids role organization ps

/-- The paginated `while True` search loop of `job_exists` lines 307-334,
walking the batches the store returns until `has_more` is false. -/
def job_exists_loop (dbids : List String) (role organization : String) :
    List (List NotionPage) → Option String
  | [] => none
  | b :: bs =>
    match find_job_in_pages dbids role organization b with
    | some pid => some pid
    | none => job_exists_loop dbids role organization bs

/-- Mirrors `NotionManager.job_exists` lines 293-339: falsy-argument guards,
trimming, then the paginated first-match scan. -/
def job_exists (database_id role organization : String)
    (store : List (List NotionPage)) : Option String :=
  if role = "" ∨ organization = "" then none
  else
    let r := pyStrip role
    let o := pyStrip organization
    if r = "" ∨ o = "" then none
    else job_exists_loop (get_db_id_formats database_id) r o store

/-- The per-page step of `get_next_number` lines 277-282:
`num = properties[Number].number or 0`-style lookup, then
`if num and num > max_num: max_num = num` for matching-parent pages. -/
def gnn_step (dbids : List String) (max_num : Int) (p : NotionPage) : Int :=
  if dbids.contains p.parent_database_id then
    if p.number.getD 0 ≠ 0 ∧ p.number.getD 0 > max_num then p.number.getD 0
    else max_num
  else max_num

/-- Mirrors `NotionManager.get_next_number` lines 260-291 on a successful
scan: fold the step over every batch of the paginated search, then return
`max + 1` when a positive maximum was seen and `1` otherwise. -/
def get_next_number (database_id : String)
    (store : List (List NotionPage)) : Int :=
  let dbids := get_db_id_formats database_id
  let max_num := store.foldl (fun acc page_batch =>
    page_batch.foldl (gnn_step dbids) acc) 0
  if max_num > 0 then max_num + 1 else 1

/-- Mirrors `get_next_number` including its `except` clause lines 289-291:
a store-side error anywhere in the scan yields `1`. -/
def get_next_number_api (database_id : String)
    (scan : Except String (List (List NotionPage))) : Int :=
  match scan with
  | Except.error _ => 1
  | Except.ok store => get_next_number database_id store

/-- The sequence numbers the scan can observe: the `Number` property
(defaulted to 0) of every page parented under the configured database. -/
def matching_numbers (dbids : List String) (ps : List NotionPage) : List Int :=
  (ps.filter (fun p => dbids.contains p.parent_database_id)).map
    (fun p => p.number.getD 0)

/-- The page written by `create_job_application` lines 356-377: parent is
the configured database id, `Notes` is written empty, `Status` only when
truthy (re-coerced), the link only when truthy. -/
def created_page (database_id new_page_id : String) (job : JobApplication)
    (number : Int) : NotionPage :=
  { id := new_page_id
    parent_database_id := database_id
    number := some number
    role_title := [pyStrip job.role]
    org_rich := [pyStrip job.organization]
    status := if job.status = "" then none
              else some (coerce_status job.status)
    link := match job.job_description_link with
            | some l => if l = "" then none else some l
            | none => none
    notes := [] }

/-- Mirrors `NotionManager.create_job_application` lines 341-383: guards on
falsy and on trimmed-empty role/organization, a fresh `get_next_number`
scan, and the `created_page` write.  `store_ok` models whether the
`pages.create` call succeeds; on failure the exception is caught and the
store is unchanged. -/
def create_job_application (database_id new_page_id : String)
    (job : JobApplication) (store_ok : Bool)
    (store : List (List NotionPage)) : Bool × List (List NotionPage) :=
  if job.role = "" ∨ job.organization = "" then (false, store)
  else if pyStrip job.role = "" ∨ pyStrip job.organization = "" then
    (false, store)
  else if store_ok then
    (true, store ++ [[created_page database_id new_page_id job
      (get_next_number database_id store)]])
  else (false, store)

/-- Mirrors the properties payload of `NotionManager.update_job_application`
lines 385-408 applied to the target page: `Status` is written (re-coerced)
when truthy and the link only when truthy; no other property appears in the
payload, so every other field keeps its stored value. -/
def update_page_props (job : JobApplication) (p : NotionPage) : NotionPage :=
  let p1 := if job.status = "" then p
            else { p with status := some (coerce_status job.status) }
  match job.job_description_link with
  | some l => if l = "" then p1 else { p1 with link := some l }
  | none => p1

/-- The store after `pages.update(page_id, properties)`: the page with the
given id receives the update payload, every other page is untouched. -/
def update_job_application (page_id : String) (job : JobApplication)
    (store : List (List NotionPage)) : List (List NotionPage) :=
  store.map (fun b => b.map (fun p =>
    if p.id = page_id then update_page_props job p else p))

/-! ### JobApplicationTracker.process_emails -/

/-- Which of the two store writes lines 472-477 run for a candidate. -/
inductive ReconcileAction where
  | create : ReconcileAction
  | update (page_id : String) : ReconcileAction
deriving DecidableEq

/-- Mirrors lines 470-477: `job_exists` decides the branch; its result is
tested for Python truthiness, so `None` and an empty page id both take the
create branch. -/
def reconcile_action (database_id : String) (job : JobApplication)
    (store : List (List NotionPage)) : ReconcileAction :=
  match job_exists database_id job.role job.organization store with
  | some pid => if pid = "" then ReconcileAction.create
                else ReconcileAction.update pid
  | none => ReconcileAction.create

/-- The subject/body pair `get_email_content` returns on success. -/
structure EmailData where
  subject : String
  body : String
deriving DecidableEq

/-- One unread message together with the external responses its processing
consumes: `fetched` is `none` when `get_email_content` hits an `HttpError`
and returns `{}`; `classify_content` and `extract_content` are the two
model responses; `new_page_id` is the id Notion would assign on create;
`store_ok` is whether the store write call succeeds. -/
structure InboxMessage where
  id : String
  fetched : Option EmailData
  classify_content : Option String
  extract_content : ModelContent
  new_page_id : String
  store_ok : Bool
deriving DecidableEq

/-- The per-message outcome of one iteration of the processing loop. -/
inductive MessageOutcome where
  | fetchFailed : MessageOutcome
  | skippedIrrelevant : MessageOutcome
  | extractionFailed : MessageOutcome
  | created : MessageOutcome
  | updated : MessageOutcome
deriving DecidableEq

/-- What one loop iteration did: its outcome and whether `mark_as_read`
was invoked for the message. -/
structure StepResult where
  outcome : MessageOutcome
  acked : Bool
deriving DecidableEq

/-- One iteration of the `for msg in messages` loop of `process_emails`
lines 430-480: fetch-failure skips with no acknowledgment (lines 433-434);
the irrelevant and extraction-failure paths acknowledge and leave the store
alone; otherwise the reconcile branch runs and the message is acknowledged
(line 480). -/
def process_message (database_id : String) (m : InboxMessage)
    (store : List (List NotionPage)) :
    StepResult × List (List NotionPage) :=
  match m.fetched with
  | none => ({ outcome := MessageOutcome.fetchFailed, acked := false }, store)
  | some _ =>
    if is_job_application m.classify_content then
      match extract_job_info m.extract_content with
      | none =>
        ({ outcome := MessageOutcome.extractionFailed, acked := true }, store)
      | some job =>
        match reconcile_action database_id job store with
        | ReconcileAction.update pid =>
          ({ outcome := MessageOutcome.updated, acked := true },
           if m.store_ok then update_job_application pid job store else store)
        | ReconcileAction.create =>
          ({ outcome := MessageOutcome.created, acked := true },
           (create_job_application database_id m.new_page_id job
              m.store_ok store).2)
    else ({ outcome := MessageOutcome.skippedIrrelevant, acked := true }, store)

/-- The whole loop of `process_emails`: messages are processed strictly in
order, each against the store state the previous iterations left. -/
def process_emails (database_id : String) :
    List InboxMessage → List (List NotionPage) →
    List StepResult × List (List NotionPage)
  | [], store => ([], store)
  | m :: ms, store =>
    let r := process_message database_id m store
    let rest := process_emails database_id ms r.2
    (r.1 :: rest.1, rest.2)

/-! ### Concrete inputs used by counterexamples and witnesses -/

/-- A parsed extraction response whose role is a whitespace-only string. -/
def c1_cex_data : ExtractData :=
  { role := some (JVal.str " "), organization := some (JVal.str "Acme"),
    job_description_link := none, status := some (JVal.str "Applied") }

/-- A parsed extraction response with an absent role key. -/
def c1_wit_data : ExtractData :=
  { role := none, organization := some (JVal.str " Acme "),
    job_description_link := none, status := some (JVal.str "Applied") }

/-- A parsed extraction response carrying the unsupported status `offer`. -/
def c2_wit_data : ExtractData :=
  { role := some (JVal.str "Engineer"), organization := some (JVal.str "Acme"),
    job_description_link := none, status := some (JVal.str "offer") }

/-- A stored page matching role `Engineer` at `Acme` under database `db`. -/
def c3_wit_page : NotionPage :=
  { id := "pg1", parent_database_id := "db", number := some 1,
    role_title := [" Engineer "], org_rich := ["Acme"],
    status := some "Applied", link := none, notes := [] }

/-- A candidate for role `Engineer` at `Acme`. -/
def c3_wit_job : JobApplication :=
  { role := "Engineer", organization := "Acme",
    job_description_link := none, status := "Interview" }

/-- A stored page under database `db` holding sequence number 2. -/
def c4_wit_page : NotionPage :=
  { id := "pg0", parent_database_id := "db", number := some 2,
    role_title := ["Old"], org_rich := ["OldCo"],
    status := some "Applied", link := none, notes := [] }

/-- A candidate that matches no stored page. -/
def c4_wit_job : JobApplication :=
  { role := "Eng", organization := "NewCo",
    job_description_link := none, status := "Applied" }

/-- A fetched, relevant message whose extraction response is unparseable. -/
def c5_wit_msg : InboxMessage :=
  { id := "m1", fetched := some { subject := "s", body := "b" },
    classify_content := some "YES",
    extract_content := ModelContent.malformed,
    new_page_id := "pg9", store_ok := true }

/-- A message whose content fetch failed (`get_email_content` returned the
empty dict), with every later step primed to succeed. -/
def c6_cex_msg : InboxMessage :=
  { id := "m2", fetched := none, classify_content := some "YES",
    extract_content := ModelContent.parsed c2_wit_data,
    new_page_id := "pg8", store_ok := true }

/-- A stored page holding a link, to be updated. -/
def c7_wit_page : NotionPage :=
  { id := "pg7", parent_database_id := "db", number := some 3,
    role_title := ["Engineer"], org_rich := ["Acme"],
    status := some "Applied", link := some "https://old", notes := ["keep"] }

/-- A candidate carrying a fresh link and an interview status. -/
def c7_wit_job : JobApplication :=
  { role := "Engineer", organization := "Acme",
    job_description_link := some "https://new", status := "Interview" }

/-- A single-part message whose only content is HTML. -/
def c8_cex_payload : MessagePayload :=
  { parts := none, mimeType := "text/html", data := some "<p>Hello</p>" }

/-- A single-part plain-text message. -/
def c8_wit_payload : MessagePayload :=
  { parts := none, mimeType := "text/plain", data := some "Hi there" }

/-- A store already holding sequence numbers 1 and 5 under database `db`. -/
def c10_store : List (List NotionPage) :=
  [[{ id := "pa", parent_database_id := "db", number := some 1,
      role_title := ["A"], org_rich := ["CoA"],
      status := some "Applied", link := none, notes := [] },
    { id := "pb", parent_database_id := "db", number := some 5,
      role_title := ["B"], org_rich := ["CoB"],
      status := some "Applied", link := none, notes := [] }]]

/-- The candidate extracted from `c1_wit_data`. -/
def c1_wit_app : JobApplication :=
  { role := "Unknown Role", organization := "Acme",
    job_description_link := none, status := "Applied" }

/-- The candidate extracted from `c2_wit_data` (status "offer" coerced). -/
def c2_wit_app : JobApplication :=
  { role := "Engineer", organization := "Acme",
    job_description_link := none, status := "Applied" }

/-! ### Helper lemmas about the store scans -/

theorem pyStrip_ne_empty_arg {s : String} (h : pyStrip s ≠ "") : s ≠ "" := by
  intro hs
  apply h
  rw [hs]
  rfl

theorem find_job_in_pages_eq (dbids : List String) (r o : String)
    (ps : List NotionPage) :
    find_job_in_pages dbids r o ps =
      ((ps.filter (page_scan_match dbids r o)).head?).map NotionPage.id := by
  induction ps with
  | nil => rfl
  | cons p ps ih =>
    by_cases h : page_scan_match dbids r o p = true
    · simp [find_job_in_pages, List.filter_cons, h]
    · simp [find_job_in_pages, List.filter_cons, h, ih]

theorem job_exists_loop_eq (dbids : List String) (r o : String)
    (bs : List (List NotionPage)) :
    job_exists_loop dbids r o bs =
      (((bs.flatten).filter (page_scan_match dbids r o)).head?).map
        NotionPage.id := by
  induction bs with
  | nil => rfl
  | cons b bs ih =>
    simp only [job_exists_loop, find_job_in_pages_eq, List.flatten_cons,
      List.filter_append, List.head?_append]
    cases hb : (b.filter (page_scan_match dbids r o)).head? with
    | none => simp [Option.or, ih]
    | some q => simp [Option.or]

theorem gnn_foldl_eq (dbids : List String) (ps : List NotionPage) :
    ∀ m : Int, 0 ≤ m →
    (∀ p ∈ ps, dbids.contains p.parent_database_id = true →
      1 ≤ p.number.getD 0) →
    ps.foldl (gnn_step dbids) m = (matching_numbers dbids ps).foldl max m := by
  induction ps with
  | nil => intro m _ _; rfl
  | cons p ps ih =>
    intro m hm hpos
    cases hc : dbids.contains p.parent_database_id with
    | false =>
      have hstep : gnn_step dbids m p = m := by
        unfold gnn_step
        rw [hc]
        rfl
      have hfil : matching_numbers dbids (p :: ps) = matching_numbers dbids ps := by
        unfold matching_numbers
        rw [List.filter_cons, if_neg (by simpa using hc)]
      simp only [List.foldl_cons, hstep, hfil]
      exact ih m hm (fun q hq => hpos q (List.mem_cons_of_mem p hq))
    | true =>
      have hp1 : 1 ≤ p.number.getD 0 := hpos p (List.mem_cons_self p ps) hc
      have hstep : gnn_step dbids m p = max m (p.number.getD 0) := by
        unfold gnn_step
        rw [hc, if_pos rfl]
        by_cases hgt : p.number.getD 0 > m
        · rw [if_pos ⟨by omega, hgt⟩, max_eq_right (le_of_lt hgt)]
        · rw [if_neg (fun hand => hgt hand.2), max_eq_left (by omega)]
      have hfil : matching_numbers dbids (p :: ps) =
          p.number.getD 0 :: matching_numbers dbids ps := by
        unfold matching_numbers
        rw [List.filter_cons, if_pos (by simpa using hc), List.map_cons]
      simp only [List.foldl_cons, hstep, hfil]
      exact ih (max m (p.number.getD 0))
        (le_trans hm (le_max_left m (p.number.getD 0)))
        (fun q hq => hpos q (List.mem_cons_of_mem p hq))

theorem get_next_number_eq_max (database_id : String)
    (store : List (List NotionPage))
    (hpos : ∀ p ∈ store.flatten,
      (get_db_id_formats database_id).contains p.parent_database_id = true →
      1 ≤ p.number.getD 0) :
    get_next_number database_id store =
      (if (matching_numbers (get_db_id_formats database_id)
            store.flatten).foldl max 0 > 0
       then (matching_numbers (get_db_id_formats database_id)
            store.flatten).foldl max 0 + 1
       else 1) := by
  unfold get_next_number
  simp only []
  rw [← List.foldl_flatten, gnn_foldl_eq _ _ 0 (le_refl 0) hpos]

theorem foldl_max_init_le (l : List Int) : ∀ m : Int, m ≤ l.foldl max m := by
  induction l with
  | nil => intro m; exact le_refl m
  | cons x l ih =>
    intro m
    exact le_trans (le_max_left m x) (ih (max m x))

theorem foldl_max_le_of_mem (l : List Int) :
    ∀ (m x : Int), x ∈ l → x ≤ l.foldl max m := by
  induction l with
  | nil => intro m x hx; cases hx
  | cons y l ih =>
    intro m x hx
    cases List.mem_cons.mp hx with
    | inl h => rw [h]; exact le_trans (le_max_right m y) (foldl_max_init_le l _)
    | inr h => exact ih (max m y) x h

theorem one_le_of_mem_matching (dbids : List String) (ps : List NotionPage)
    (hpos : ∀ p ∈ ps, dbids.contains p.parent_database_id = true →
      1 ≤ p.number.getD 0) :
    ∀ x ∈ matching_numbers dbids ps, 1 ≤ x := by
  intro x hx
  simp only [matching_numbers, List.mem_map, List.mem_filter] at hx
  obtain ⟨p, ⟨hmem, hc⟩, hval⟩ := hx
  rw [← hval]
  exact hpos p hmem hc

theorem matching_numbers_append (dbids : List String)
    (l₁ l₂ : List NotionPage) :
    matching_numbers dbids (l₁ ++ l₂) =
      matching_numbers dbids l₁ ++ matching_numbers dbids l₂ := by
  simp [matching_numbers, List.filter_append]

theorem db_id_formats_contains_self (database_id : String) :
    (get_db_id_formats database_id).contains database_id = true := by
  simp [get_db_id_formats, List.contains_cons]

/-! ### Claim theorems -/

/-- C1, counterexample: a whitespace-only role value passes the
absent/empty/null/unknown check untouched, so the returned candidate's role
is the empty string after trimming — the claimed non-emptiness guarantee
fails. -/
theorem c1_placeholder_counterexample :
    extract_job_info (ModelContent.parsed c1_cex_data) =
      some { role := "", organization := "Acme",
             job_description_link := none, status := "Applied" } := by
  decide

/-- C1, amended: if the role (resp. organization) field is absent, empty,
or case-insensitively "null"/"unknown" (the `bad_key` test), the returned
field is exactly the fixed placeholder; otherwise it is the trimmed raw
string, which can be empty only when the raw field was a non-empty
whitespace-only string. -/
theorem c1_placeholder_amended (d : ExtractData) (app : JobApplication)
    (h : extract_job_info (ModelContent.parsed d) = some app) :
    (bad_key (d.role.getD (JVal.str "Unknown")) = true →
      app.role = "Unknown Role")
    ∧ (bad_key (d.organization.getD (JVal.str "Unknown")) = true →
      app.organization = "Unknown Organization")
    ∧ (bad_key (d.role.getD (JVal.str "Unknown")) = false →
      app.role = pyStrip (pyStr (d.role.getD (JVal.str "Unknown"))))
    ∧ (bad_key (d.organization.getD (JVal.str "Unknown")) = false →
      app.organization =
        pyStrip (pyStr (d.organization.getD (JVal.str "Unknown"))))
    ∧ (app.role = "" →
        ∃ s, d.role = some (JVal.str s) ∧ s ≠ "" ∧ pyStrip s = "")
    ∧ (app.organization = "" →
        ∃ s, d.organization = some (JVal.str s) ∧ s ≠ "" ∧ pyStrip s = "") := by
  unfold extract_job_info at h
  simp only [] at h
  rw [Option.some.injEq] at h
  subst h
  refine ⟨?_, ?_, ?_, ?_, ?_, ?_⟩
  · intro hb
    show pyStrip (if bad_key (d.role.getD (JVal.str "Unknown")) then _ else _) = _
    rw [hb, if_pos rfl]
    decide
  · intro hb
    show pyStrip (if bad_key (d.organization.getD (JVal.str "Unknown")) then _ else _) = _
    rw [hb, if_pos rfl]
    decide
  · intro hb
    show pyStrip (if bad_key (d.role.getD (JVal.str "Unknown")) then _ else _) = _
    rw [hb, if_neg (by simp)]
  · intro hb
    show pyStrip (if bad_key (d.organization.getD (JVal.str "Unknown")) then _ else _) = _
    rw [hb, if_neg (by simp)]
  · intro hr
    change pyStrip (if bad_key (d.role.getD (JVal.str "Unknown")) then _ else _) = "" at hr
    cases hbk : bad_key (d.role.getD (JVal.str "Unknown")) with
    | true =>
      rw [hbk, if_pos rfl] at hr
      exact absurd hr (by decide)
    | false =>
      rw [hbk, if_neg (by simp)] at hr
      cases hd : d.role with
      | none =>
        rw [hd] at hbk
        exact absurd hbk (by decide)
      | some v =>
        rw [hd] at hbk hr
        cases v with
        | null => exact absurd hbk (by decide)
        | str s =>
          simp only [Option.getD_some, pyStr] at hbk hr
          simp only [bad_key, JVal.truthy, Bool.or_eq_false_iff,
            Bool.not_eq_false', beq_iff_eq, beq_eq_false_iff_ne] at hbk
          exact ⟨s, rfl, by simpa using hbk.1.1, hr⟩
  · intro hr
    change pyStrip (if bad_key (d.organization.getD (JVal.str "Unknown")) then _ else _) = "" at hr
    cases hbk : bad_key (d.organization.getD (JVal.str "Unknown")) with
    | true =>
      rw [hbk, if_pos rfl] at hr
      exact absurd hr (by decide)
    | false =>
      rw [hbk, if_neg (by simp)] at hr
      cases hd : d.organization with
      | none =>
        rw [hd] at hbk
        exact absurd hbk (by decide)
      | some v =>
        rw [hd] at hbk hr
        cases v with
        | null => exact absurd hbk (by decide)
        | str s =>
          simp only [Option.getD_some, pyStr] at hbk hr
          simp only [bad_key, JVal.truthy, Bool.or_eq_false_iff,
            Bool.not_eq_false', beq_iff_eq, beq_eq_false_iff_ne] at hbk
          exact ⟨s, rfl, by simpa using hbk.1.1, hr⟩

/-- C1 witness: the amended theorem applied to a response with an absent
role key and a padded organization. -/
theorem c1_placeholder_amended_witness :
    extract_job_info (ModelContent.parsed c1_wit_data) = some c1_wit_app
    ∧ c1_wit_app.role = "Unknown Role"
    ∧ c1_wit_app.organization = pyStrip (pyStr
        (c1_wit_data.organization.getD (JVal.str "Unknown"))) :=
  ⟨by decide,
   (c1_placeholder_amended c1_wit_data c1_wit_app (by decide)).1 (by decide),
   (c1_placeholder_amended c1_wit_data c1_wit_app (by decide)).2.2.2.1
     (by decide)⟩

/-- C2: every candidate the extractor returns carries a status in
{Applied, Interview, Rejected}; on a parsed response the status is the
capitalize-normalized raw value when that lies in the set and exactly
"Applied" otherwise. -/
theorem c2_status_closure (mc : ModelContent) (app : JobApplication)
    (h : extract_job_info mc = some app) :
    (app.status = "Applied" ∨ app.status = "Interview" ∨
      app.status = "Rejected")
    ∧ ∀ d, mc = ModelContent.parsed d →
        app.status =
          (if pyCapitalize (pyStrip (pyStr (d.status.getD (JVal.str "Applied")))) = "Applied"
              ∨ pyCapitalize (pyStrip (pyStr (d.status.getD (JVal.str "Applied")))) = "Interview"
              ∨ pyCapitalize (pyStrip (pyStr (d.status.getD (JVal.str "Applied")))) = "Rejected"
           then pyCapitalize (pyStrip (pyStr (d.status.getD (JVal.str "Applied"))))
           else "Applied") := by
  cases mc with
  | empty => exact absurd h (by simp [extract_job_info])
  | malformed => exact absurd h (by simp [extract_job_info])
  | parsed d =>
    unfold extract_job_info at h
    simp only [] at h
    rw [Option.some.injEq] at h
    subst h
    constructor
    · show (coerce_status (pyStr (d.status.getD (JVal.str "Applied"))) = _ ∨ _)
      unfold coerce_status
      simp only []
      by_cases hn : pyCapitalize (pyStrip (pyStr (d.status.getD (JVal.str "Applied")))) = "Applied"
          ∨ pyCapitalize (pyStrip (pyStr (d.status.getD (JVal.str "Applied")))) = "Interview"
          ∨ pyCapitalize (pyStrip (pyStr (d.status.getD (JVal.str "Applied")))) = "Rejected"
      · rw [if_pos hn]; exact hn
      · rw [if_neg hn]; exact Or.inl rfl
    · intro d' hd'
      cases hd'
      show coerce_status (pyStr (d.status.getD (JVal.str "Applied"))) = _
      unfold coerce_status
      rfl

/-- C2 witness: the theorem applied to a response carrying the unsupported
status "offer", which the extractor coerces to "Applied". -/
theorem c2_status_closure_witness :
    extract_job_info (ModelContent.parsed c2_wit_data) = some c2_wit_app
    ∧ (c2_wit_app.status = "Applied" ∨ c2_wit_app.status = "Interview" ∨
        c2_wit_app.status = "Rejected") :=
  ⟨by decide,
   (c2_status_closure (ModelContent.parsed c2_wit_data) c2_wit_app
     (by decide)).1⟩

/-- C7: an update writes only the status property and, when the candidate
carries a (non-empty) link, the link property; role, organization, sequence
number and notes are untouched, an absent candidate link leaves the stored
link unchanged, and a present link always overwrites it. -/
theorem c7_update_frame (p : NotionPage) (job : JobApplication) :
    (update_page_props job p).role_title = p.role_title
    ∧ (update_page_props job p).org_rich = p.org_rich
    ∧ (update_page_props job p).number = p.number
    ∧ (update_page_props job p).notes = p.notes
    ∧ (update_page_props job p).id = p.id
    ∧ (update_page_props job p).parent_database_id = p.parent_database_id
    ∧ (job.job_description_link = none →
        (update_page_props job p).link = p.link)
    ∧ (∀ l, job.job_description_link = some l → l ≠ "" →
        (update_page_props job p).link = some l) := by
  unfold update_page_props
  cases hjl : job.job_description_link with
  | none => by_cases hs : job.status = "" <;> simp [hs]
  | some l =>
    by_cases hs : job.status = "" <;> by_cases hl : l = "" <;>
      simp [hs, hl]

/-- C7 witness: updating a stored page with a candidate that carries a new
link, via the theorem. -/
theorem c7_update_frame_witness :
    (update_page_props c7_wit_job c7_wit_page).number = c7_wit_page.number
    ∧ (update_page_props c7_wit_job c7_wit_page).notes = c7_wit_page.notes
    ∧ (update_page_props c7_wit_job c7_wit_page).link = some "https://new" :=
  ⟨(c7_update_frame c7_wit_page c7_wit_job).2.2.1,
   (c7_update_frame c7_wit_page c7_wit_job).2.2.2.1,
   (c7_update_frame c7_wit_page c7_wit_job).2.2.2.2.2.2.2 "https://new"
     rfl (by decide)⟩

/-- C8, counterexample: a message whose only part is text/html yields the
empty string from body extraction, not the tag-stripped text of the part
(which here is "Hello"). -/
theorem c8_single_part_counterexample :
    extract_body c8_cex_payload = ""
    ∧ strip_tags "<p>Hello</p>" = "Hello"
    ∧ ("Hello" : String) ≠ "" := by decide

/-- C8, amended: the single-part branch of body extraction decodes only
text/plain payloads; any single-part message of another type — text/html
included — yields the empty string, with no HTML fallback. -/
theorem c8_single_part_amended (payload : MessagePayload)
    (hp : payload.parts = none) :
    (payload.mimeType ≠ "text/plain" → extract_body payload = "")
    ∧ (∀ d, payload.mimeType = "text/plain" → payload.data = some d →
        extract_body payload = d)
    ∧ (payload.data = none → extract_body payload = "") := by
  unfold extract_body
  rw [hp]
  refine ⟨?_, ?_, ?_⟩
  · intro hm
    rw [if_neg hm]
  · intro d hm hd
    rw [if_pos hm, hd]
  · intro hd
    by_cases hm : payload.mimeType = "text/plain"
    · rw [if_pos hm, hd]
    · rw [if_neg hm]

/-- C8 witness: the amended theorem applied to a single-part plain-text
message and to the single-part HTML message. -/
theorem c8_single_part_amended_witness :
    c8_wit_payload.parts = none
    ∧ extract_body c8_wit_payload = "Hi there"
    ∧ extract_body c8_cex_payload = "" :=
  ⟨rfl,
   (c8_single_part_amended c8_wit_payload rfl).2.1 "Hi there" rfl rfl,
   (c8_single_part_amended c8_cex_payload rfl).1 (by decide)⟩

/-- C9, counterexample: the classifier also answers true on "yes", which is
not exactly the affirmative token "YES" — the comparison happens after
stripping and upper-casing the response. -/
theorem c9_yes_token_counterexample :
    is_job_application (some "yes") = true ∧ ("yes" : String) ≠ "YES" := by
  decide

/-- C9, amended: the classifier answers true exactly when the response,
after stripping whitespace and upper-casing, equals "YES"; missing or empty
content and every other response yield false. -/
theorem c9_yes_token_amended (content : Option String) :
    is_job_application content = true ↔
      ∃ s, content = some s ∧ s ≠ "" ∧ pyUpper (pyStrip s) = "YES" := by
  cases content with
  | none => simp [is_job_application]
  | some c =>
    by_cases hc : c = ""
    · subst hc
      simp [is_job_application]
    · simp [is_job_application, hc]

/-- C10: a store-side error during the sequence-number scan makes
`get_next_number` return 1 regardless of the store's contents; on the
concrete store `c10_store` a successful scan would assign 6, and a page
with number 1 already exists, so a create after a failed scan duplicates
an existing sequence number. -/
theorem c10_failed_scan_returns_one :
    (∀ e database_id, get_next_number_api database_id (Except.error e) = 1)
    ∧ get_next_number_api "db" (Except.ok c10_store) = 6
    ∧ (1 : Int) ∈ matching_numbers (get_db_id_formats "db")
        c10_store.flatten :=
  ⟨fun _ _ => rfl, by decide, by decide⟩

/-- C3: for a validated candidate (non-empty trimmed role and organization)
against a store of well-formed pages (non-empty ids), the branch taken at
lines 472-477 is the update path exactly when some stored page matches the
candidate's trimmed (role, organization) pair, with the first match in scan
order selected, and the create path otherwise — exactly one of the two. -/
theorem c3_reconcile_exclusive (database_id : String)
    (store : List (List NotionPage)) (job : JobApplication)
    (hrole : pyStrip job.role ≠ "") (horg : pyStrip job.organization ≠ "")
    (hids : ∀ p ∈ store.flatten, p.id ≠ "") :
    reconcile_action database_id job store =
      (((store.flatten.filter (page_scan_match (get_db_id_formats database_id)
          (pyStrip job.role) (pyStrip job.organization))).head?).map
        (fun p => ReconcileAction.update p.id)).getD ReconcileAction.create
    ∧ ((∃ pid, reconcile_action database_id job store =
          ReconcileAction.update pid) ↔
        ¬ reconcile_action database_id job store = ReconcileAction.create) := by
  have hr : job.role ≠ "" := pyStrip_ne_empty_arg hrole
  have ho : job.organization ≠ "" := pyStrip_ne_empty_arg horg
  have hje : job_exists database_id job.role job.organization store =
      ((store.flatten.filter (page_scan_match (get_db_id_formats database_id)
        (pyStrip job.role) (pyStrip job.organization))).head?).map
        NotionPage.id := by
    unfold job_exists
    rw [if_neg (not_or.mpr ⟨hr, ho⟩)]
    simp only []
    rw [if_neg (not_or.mpr ⟨hrole, horg⟩)]
    exact job_exists_loop_eq _ _ _ _
  have hact : reconcile_action database_id job store =
      (((store.flatten.filter (page_scan_match (get_db_id_formats database_id)
          (pyStrip job.role) (pyStrip job.organization))).head?).map
        (fun p => ReconcileAction.update p.id)).getD ReconcileAction.create := by
    unfold reconcile_action
    rw [hje]
    cases hh : (store.flatten.filter (page_scan_match
        (get_db_id_formats database_id) (pyStrip job.role)
        (pyStrip job.organization))).head? with
    | none => rfl
    | some q =>
      obtain ⟨t, ht⟩ := List.head?_eq_some_iff.mp hh
      have hqid : q.id ≠ "" :=
        hids q (List.mem_filter.mp (ht ▸ List.mem_cons_self q t)).1
      show (if q.id = "" then ReconcileAction.create
            else ReconcileAction.update q.id) = ReconcileAction.update q.id
      rw [if_neg hqid]
  refine ⟨hact, ?_⟩
  rw [hact]
  cases (store.flatten.filter (page_scan_match (get_db_id_formats database_id)
      (pyStrip job.role) (pyStrip job.organization))).head? with
  | none => simp
  | some q => simp

/-- C3 witness: the theorem applied to a one-page store matching the
candidate, whose page is selected for update. -/
theorem c3_reconcile_exclusive_witness :
    pyStrip c3_wit_job.role ≠ ""
    ∧ reconcile_action "db" c3_wit_job [[c3_wit_page]] =
        ReconcileAction.update "pg1" :=
  ⟨by decide,
   by
    have h := (c3_reconcile_exclusive "db" [[c3_wit_page]] c3_wit_job
      (by decide) (by decide) (by decide)).1
    rw [h]
    decide⟩

/-- C4: on a store whose matching-parent pages all carry positive sequence
numbers, the create path assigns one plus the maximum number observed
across the full paginated scan, or 1 when no matching record exists; and a
successful create raises the next assigned number by exactly one, so
successive creates in a run count up from the observed maximum. -/
theorem c4_sequence_assignment (database_id new_page_id : String)
    (job : JobApplication) (store : List (List NotionPage))
    (hpos : ∀ p ∈ store.flatten,
      (get_db_id_formats database_id).contains p.parent_database_id = true →
      1 ≤ p.number.getD 0)
    (hrole : pyStrip job.role ≠ "") (horg : pyStrip job.organization ≠ "") :
    (matching_numbers (get_db_id_formats database_id) store.flatten = [] →
      get_next_number database_id store = 1)
    ∧ (matching_numbers (get_db_id_formats database_id) store.flatten ≠ [] →
      get_next_number database_id store =
        (matching_numbers (get_db_id_formats database_id)
          store.flatten).foldl max 0 + 1)
    ∧ (create_job_application database_id new_page_id job true store).1 = true
    ∧ get_next_number database_id
        (create_job_application database_id new_page_id job true store).2 =
      get_next_number database_id store + 1 := by
  have hr : job.role ≠ "" := pyStrip_ne_empty_arg hrole
  have ho : job.organization ≠ "" := pyStrip_ne_empty_arg horg
  have hgnn := get_next_number_eq_max database_id store hpos
  have hM0 : (0 : Int) ≤ (matching_numbers (get_db_id_formats database_id)
      store.flatten).foldl max 0 := foldl_max_init_le _ 0
  have h1 : matching_numbers (get_db_id_formats database_id) store.flatten = [] →
      get_next_number database_id store = 1 := by
    intro h0
    rw [hgnn, h0]
    rfl
  have h2 : matching_numbers (get_db_id_formats database_id) store.flatten ≠ [] →
      get_next_number database_id store =
        (matching_numbers (get_db_id_formats database_id)
          store.flatten).foldl max 0 + 1 := by
    intro hne
    obtain ⟨x, hx⟩ := List.exists_mem_of_ne_nil _ hne
    have hx1 : 1 ≤ x := one_le_of_mem_matching _ _ hpos x hx
    have hxm : x ≤ (matching_numbers (get_db_id_formats database_id)
        store.flatten).foldl max 0 := foldl_max_le_of_mem _ 0 x hx
    rw [hgnn, if_pos (by omega)]
  have hn1 : 1 ≤ get_next_number database_id store := by
    rw [hgnn]
    by_cases hM : (matching_numbers (get_db_id_formats database_id)
        store.flatten).foldl max 0 > 0
    · rw [if_pos hM]; omega
    · rw [if_neg hM]
  have hcr : create_job_application database_id new_page_id job true store =
      (true, store ++ [[created_page database_id new_page_id job
        (get_next_number database_id store)]]) := by
    unfold create_job_application
    rw [if_neg (not_or.mpr ⟨hr, ho⟩), if_neg (not_or.mpr ⟨hrole, horg⟩),
      if_pos rfl]
  refine ⟨h1, h2, by rw [hcr], ?_⟩
  rw [hcr]
  simp only []
  have hflat : (store ++ [[created_page database_id new_page_id job
      (get_next_number database_id store)]]).flatten =
      store.flatten ++ [created_page database_id new_page_id job
        (get_next_number database_id store)] := by
    simp
  have hpos2 : ∀ p ∈ (store ++ [[created_page database_id new_page_id job
      (get_next_number database_id store)]]).flatten,
      (get_db_id_formats database_id).contains p.parent_database_id = true →
      1 ≤ p.number.getD 0 := by
    rw [hflat]
    intro p hp hc
    rcases List.mem_append.mp hp with hmem | hmem
    · exact hpos p hmem hc
    · rw [List.mem_singleton.mp hmem]
      simpa [created_page] using hn1
  have hgnn2 := get_next_number_eq_max database_id _ hpos2
  rw [hgnn2]
  have hmn : matching_numbers (get_db_id_formats database_id)
      ((store ++ [[created_page database_id new_page_id job
        (get_next_number database_id store)]]).flatten) =
      matching_numbers (get_db_id_formats database_id) store.flatten ++
        [get_next_number database_id store] := by
    rw [hflat, matching_numbers_append]
    congr 1
    unfold matching_numbers
    rw [List.filter_cons,
      if_pos (by simpa [created_page] using
        db_id_formats_contains_self database_id)]
    rfl
  rw [hmn, List.foldl_append]
  by_cases hM : (matching_numbers (get_db_id_formats database_id)
      store.flatten).foldl max 0 > 0
  · have hmax : max ((matching_numbers (get_db_id_formats database_id)
        store.flatten).foldl max 0)
        ((matching_numbers (get_db_id_formats database_id)
          store.flatten).foldl max 0 + 1) =
        (matching_numbers (get_db_id_formats database_id)
          store.flatten).foldl max 0 + 1 := max_eq_right (by omega)
    simp only [List.foldl_cons, List.foldl_nil, hgnn, if_pos hM, hmax]
    rw [if_pos (by omega)]
  · have hMz : (matching_numbers (get_db_id_formats database_id)
        store.flatten).foldl max 0 = 0 := by omega
    have hmax : max ((matching_numbers (get_db_id_formats database_id)
        store.flatten).foldl max 0) (1 : Int) = 1 := by
      rw [hMz]
      exact max_eq_right (by omega)
    simp only [List.foldl_cons, List.foldl_nil, hgnn, if_neg hM, hmax]
    rw [if_pos (by omega)]

/-- C4 witness: the theorem applied to a one-page store holding sequence
number 2 — the next create assigns 3, and a create after it would assign 4. -/
theorem c4_sequence_assignment_witness :
    matching_numbers (get_db_id_formats "db")
      ([[c4_wit_page]] : List (List NotionPage)).flatten ≠ []
    ∧ get_next_number "db" [[c4_wit_page]] = 3
    ∧ get_next_number "db"
        (create_job_application "db" "pgN" c4_wit_job true [[c4_wit_page]]).2 = 4 := by
  have h := c4_sequence_assignment "db" "pgN" c4_wit_job [[c4_wit_page]]
    (by decide) (by decide) (by decide)
  refine ⟨by decide, ?_, ?_⟩
  · rw [h.2.1 (by decide)]
    decide
  · rw [h.2.2.2, h.2.1 (by decide)]
    decide

/-- C5: an unparseable (or empty) extraction response makes
`extract_job_info` return none rather than failing; the message's iteration
records an extraction failure, still acknowledges the message and leaves
the store untouched, so the rest of the batch proceeds exactly as if the
failed message had produced nothing. -/
theorem c5_malformed_confined (database_id : String) (m : InboxMessage)
    (store : List (List NotionPage)) (ms : List InboxMessage)
    (d : EmailData) (hf : m.fetched = some d)
    (hc : is_job_application m.classify_content = true)
    (he : m.extract_content = ModelContent.malformed ∨
      m.extract_content = ModelContent.empty) :
    extract_job_info m.extract_content = none
    ∧ process_message database_id m store =
        ({ outcome := MessageOutcome.extractionFailed, acked := true }, store)
    ∧ process_emails database_id (m :: ms) store =
        (({ outcome := MessageOutcome.extractionFailed, acked := true } :
            StepResult) :: (process_emails database_id ms store).1,
         (process_emails database_id ms store).2) := by
  have hex : extract_job_info m.extract_content = none := by
    rcases he with h | h <;> rw [h] <;> rfl
  have hpm : process_message database_id m store =
      ({ outcome := MessageOutcome.extractionFailed, acked := true }, store) := by
    unfold process_message
    rw [hf]
    simp only [hc, if_true, hex]
  refine ⟨hex, hpm, ?_⟩
  simp only [process_emails, hpm]

/-- C5 witness: the theorem applied to a fetched, relevant message whose
extraction response is malformed, against the empty store. -/
theorem c5_malformed_confined_witness :
    c5_wit_msg.fetched = some { subject := "s", body := "b" }
    ∧ is_job_application c5_wit_msg.classify_content = true
    ∧ extract_job_info c5_wit_msg.extract_content = none
    ∧ process_message "db" c5_wit_msg [] =
        ({ outcome := MessageOutcome.extractionFailed, acked := true }, []) :=
  ⟨rfl, by decide,
   (c5_malformed_confined "db" c5_wit_msg [] [] { subject := "s", body := "b" }
     rfl (by decide) (Or.inl rfl)).1,
   (c5_malformed_confined "db" c5_wit_msg [] [] { subject := "s", body := "b" }
     rfl (by decide) (Or.inl rfl)).2.1⟩

/-- C6, counterexample: a message whose content fetch fails is skipped by
`continue` with no `mark_as_read` call, so it stays unacknowledged even
though the acknowledgment transport never failed — refuting that only a
failing acknowledgment call leaves a message unacknowledged. -/
theorem c6_ack_counterexample :
    (process_message "db" c6_cex_msg []).1 =
      { outcome := MessageOutcome.fetchFailed, acked := false }
    ∧ c6_cex_msg.store_ok = true := by decide

/-- C6, amended: every message whose content fetch succeeds has
`mark_as_read` invoked by the end of its iteration, whatever the outcome
(irrelevant, extraction failure, create, update, store-side failure); a
message whose content fetch fails at transport level is skipped without an
acknowledgment attempt. -/
theorem c6_ack_amended (database_id : String) (m : InboxMessage)
    (store : List (List NotionPage)) :
    (m.fetched ≠ none → (process_message database_id m store).1.acked = true)
    ∧ (m.fetched = none →
        (process_message database_id m store).1.acked = false) := by
  constructor
  · intro hf
    cases hm : m.fetched with
    | none => exact absurd hm hf
    | some d =>
      unfold process_message
      rw [hm]
      by_cases hc : is_job_application m.classify_content = true
      · simp only [hc, if_true]
        split
        · rfl
        · split <;> rfl
      · simp only [Bool.not_eq_true] at hc
        simp only [hc, Bool.false_eq_true, if_false]
  · intro hf
    unfold process_message
    rw [hf]

/-- C6 witness: the amended theorem applied to a successfully fetched
message and to the fetch-failed message. -/
theorem c6_ack_amended_witness :
    c5_wit_msg.fetched ≠ none
    ∧ (process_message "db" c5_wit_msg []).1.acked = true
    ∧ c6_cex_msg.fetched = none
    ∧ (process_message "db" c6_cex_msg []).1.acked = false :=
  ⟨by decide,
   (c6_ack_amended "db" c5_wit_msg []).1 (by decide),
   rfl,
   (c6_ack_amended "db" c6_cex_msg []).2 rfl⟩
